import Mathlib

/-!
Verification development for the skpro repository fragment:
`skpro/distributions/inversegamma.py` (the `InverseGamma` distribution
family) and `skpro/workflow/manager/data.py` (the `DataManager` helper).

Python values are embedded shallowly: numbers as `ℚ` (all parameter
values in the claims are finite decimals), numpy arrays as lists of
rationals together with an object identity, pandas indices as lists of
labels, exceptions as an `Except` error monad.  The broadcasting base
class `_ScipyAdapter`/`BaseDistribution` is repository code that is not
part of the given sources, so it is modelled from the specification
(each such definition says so in its doc comment).
-/

namespace Skpro

/-- A label of a pandas index: either an integer or a string label. -/
inductive Label where
  | nat (n : Nat)
  | str (s : String)
deriving DecidableEq

/-- A raw distribution parameter as accepted by the constructor:
a scalar, a 1-D sequence, or a 2-D array of numbers. -/
inductive Param where
  | scalar (x : ℚ)
  | vec (xs : List ℚ)
  | mat (xss : List (List ℚ))
deriving DecidableEq

/-- The value of a tag in the `_tags` dictionary of a distribution
family: either a list of statistic names or a single string. -/
inductive TagVal where
  | strList (l : List String)
  | str (s : String)
deriving DecidableEq

/-- The `_tags` class attribute of `InverseGamma`, transcribed from
`skpro/distributions/inversegamma.py`. -/
def InverseGamma.tags : List (String × TagVal) :=
  [ ("capabilities:approx", TagVal.strList ["energy", "pdfnorm"]),
    ("capabilities:exact",
      TagVal.strList ["mean", "var", "pdf", "log_pdf", "cdf", "ppf"]),
    ("distr:measuretype", TagVal.str "continuous"),
    ("distr:paramtype", TagVal.str "parametric"),
    ("broadcast_init", TagVal.str "on") ]

/-- Lookup of a tag by key in a tag dictionary. -/
def tagLookup (key : String) (tags : List (String × TagVal)) : Option TagVal :=
  (tags.find? (fun kv => kv.1 = key)).map (·.2)

/-- The list of exact-capability statistic names of `InverseGamma`. -/
def InverseGamma.capabilitiesExact : List String :=
  match tagLookup "capabilities:exact" InverseGamma.tags with
  | some (TagVal.strList l) => l
  | _ => []

/-- The list of approximate-capability statistic names of `InverseGamma`. -/
def InverseGamma.capabilitiesApprox : List String :=
  match tagLookup "capabilities:approx" InverseGamma.tags with
  | some (TagVal.strList l) => l
  | _ => []

/-- Error kinds of the system, from the spec's error-handling design:
`shapeError` carries the conflicting dimension name and the two
conflicting values; `domainError` names the offending parameter;
`valueError` is the Python `ValueError` kind of `DataManager`. -/
inductive Err where
  | shapeError (dim : String) (given expected : Nat)
  | domainError (param : String)
  | valueError (msg : String)
deriving DecidableEq

/-- Shape of a raw parameter: a scalar is `(1, 1)`, a 1-D sequence of
length `n` is a row `(1, n)` (standard broadcasting aligns trailing
dimensions, with absent dimensions implied as 1), a rectangular 2-D
array is `(rows, cols)`; a ragged 2-D array has no shape. -/
def Param.shape : Param → Option (Nat × Nat)
  | Param.scalar _ => some (1, 1)
  | Param.vec xs => some (1, xs.length)
  | Param.mat [] => some (0, 0)
  | Param.mat (row :: rest) =>
    if rest.all (fun r => r.length = row.length) then
      some (rest.length + 1, row.length)
    else none

/-- All numeric values held by a raw parameter. -/
def Param.values : Param → List ℚ
  | Param.scalar x => [x]
  | Param.vec xs => xs
  | Param.mat xss => xss.flatten

/-- Modelled from the spec: domain validation of the Inverse Gamma
family — shape and scale parameters must be strictly positive
(enforced at construction time by the family adapter, which is not
among the given sources). -/
def Param.domainOk (p : Param) : Bool :=
  p.values.all (fun x => 0 < x)

/-- Modelled from the spec: standard two-operand broadcasting of one
dimension — the sizes match, or one of them is 1 and is stretched. -/
def bcDim (a b : Nat) : Option Nat :=
  if a = b then some a
  else if a = 1 then some b
  else if b = 1 then some a
  else none

/-- Value of a raw parameter at cell `(i, j)` after broadcasting to a
target shape: size-1 dimensions are stretched, other dimensions are
read directly. -/
def Param.bcGet : Param → Nat → Nat → ℚ
  | Param.scalar x, _, _ => x
  | Param.vec xs, _, j => xs.getD (if xs.length = 1 then 0 else j) 0
  | Param.mat xss, i, j =>
    let row := xss.getD (if xss.length = 1 then 0 else i) []
    row.getD (if row.length = 1 then 0 else j) 0

/-- Modelled from the spec: the ParameterTensor of one raw parameter,
replicated/broadcast to the final shape `(r, c)`. -/
def bcTensor (p : Param) (r c : Nat) : List (List ℚ) :=
  (List.range r).map (fun i => (List.range c).map (fun j => p.bcGet i j))

/-- Default dense integer index `[0, n)` used when no explicit index is
supplied. -/
def defaultIndex (n : Nat) : List Label :=
  (List.range n).map Label.nat

/-- Modelled from the spec: resolution of one axis of the grid against
an optional explicit index — the explicit length must equal the
broadcast dimension, or the broadcast dimension must be 1, in which
case it is expanded to the explicit length; any other mismatch is a
ShapeError naming the conflicting dimension and values. -/
def resolveIndex (dim : String) (explicit : Option (List Label)) (bdim : Nat) :
    Except Err (Nat × List Label) :=
  match explicit with
  | none => Except.ok (bdim, defaultIndex bdim)
  | some labels =>
    if labels.length = bdim then Except.ok (bdim, labels)
    else if bdim = 1 then Except.ok (labels.length, labels)
    else Except.error (Err.shapeError dim labels.length bdim)

/-- The grid of independent distributions: broadcast parameter tensors
for `alpha` and `beta`, together with the row and column indices. -/
structure DistributionGrid where
  rows : Nat
  cols : Nat
  index : List Label
  columns : List Label
  alphaT : List (List ℚ)
  betaT : List (List ℚ)
deriving DecidableEq

/-- Modelled from the spec: construction of an `InverseGamma` grid.
The `__init__` of `InverseGamma` stores `alpha` and `beta` and
delegates to the broadcasting base class (not among the given
sources): domain validation of the family, mutual broadcasting of the
parameter shapes, resolution of the optional explicit indices, and
production of one ParameterTensor per parameter. -/
def InverseGamma.construct (alpha beta : Param)
    (index columns : Option (List Label)) : Except Err DistributionGrid :=
  if ¬ alpha.domainOk then Except.error (Err.domainError "alpha")
  else if ¬ beta.domainOk then Except.error (Err.domainError "beta")
  else
    match alpha.shape, beta.shape with
    | some sa, some sb =>
      match bcDim sa.1 sb.1 with
      | none => Except.error (Err.shapeError "rows" sa.1 sb.1)
      | some r =>
        match bcDim sa.2 sb.2 with
        | none => Except.error (Err.shapeError "columns" sa.2 sb.2)
        | some c => do
          let ri ← resolveIndex "rows" index r
          let ci ← resolveIndex "columns" columns c
          Except.ok
            { rows := ri.1, cols := ci.1, index := ri.2, columns := ci.2,
              alphaT := bcTensor alpha ri.1 ci.1,
              betaT := bcTensor beta ri.1 ci.1 }
    | _, _ => Except.error (Err.shapeError "ragged" 0 0)

/-- The `alpha` ParameterTensor value of a grid at cell `(i, j)`. -/
def DistributionGrid.alphaAt (g : DistributionGrid) (i j : Nat) : ℚ :=
  (g.alphaT.getD i []).getD j 0

/-- The `beta` ParameterTensor value of a grid at cell `(i, j)`. -/
def DistributionGrid.betaAt (g : DistributionGrid) (i j : Nat) : ℚ :=
  (g.betaT.getD i []).getD j 0

/-- Shape of a construction result, when construction succeeded. -/
def gridShape (e : Except Err DistributionGrid) : Option (Nat × Nat) :=
  match e with
  | Except.ok g => some (g.rows, g.cols)
  | Except.error _ => none

/-- The full `alpha` ParameterTensor of a construction result. -/
def gridAlpha (e : Except Err DistributionGrid) : Option (List (List ℚ)) :=
  match e with
  | Except.ok g => some g.alphaT
  | Except.error _ => none

/-- One `alpha` cell of a construction result. -/
def gridAlphaAt (e : Except Err DistributionGrid) (i j : Nat) : Option ℚ :=
  match e with
  | Except.ok g => some (g.alphaAt i j)
  | Except.error _ => none

/-- One `beta` cell of a construction result. -/
def gridBetaAt (e : Except Err DistributionGrid) (i j : Nat) : Option ℚ :=
  match e with
  | Except.ok g => some (g.betaAt i j)
  | Except.error _ => none

/-- Whether a raw parameter is a plain scalar. -/
def Param.isScalar : Param → Bool
  | Param.scalar _ => true
  | _ => false

/-- One example parameter configuration returned by
`InverseGamma.get_test_params`. -/
structure TestParams where
  alpha : Param
  beta : Param
  index : Option (List Label)
  columns : Option (List Label)
deriving DecidableEq

set_option linter.unusedVariables false in
/-- Transcription of `InverseGamma.get_test_params` from
`skpro/distributions/inversegamma.py`: a fixed list of three example
configurations, independent of the `parameter_set` argument. -/
def InverseGamma.getTestParams (parameterSet : String) : List TestParams :=
  [ { alpha := Param.vec [6, 5/2],
      beta := Param.mat [[1, 1], [2, 3], [4, 5]],
      index := none, columns := none },
    { alpha := Param.scalar 2, beta := Param.scalar 3,
      index := some [Label.nat 1, Label.nat 2, Label.nat 5],
      columns := some [Label.str "a", Label.str "b"] },
    { alpha := Param.scalar (3/2), beta := Param.scalar (21/10),
      index := none, columns := none } ]

/-- The keyword scipy parameters built by
`InverseGamma._get_scipy_param`: `a` is the broadcast alpha tensor and
`scale` is the broadcast beta tensor (source: `scale = beta`). -/
structure ScipyParams where
  a : List (List ℚ)
  scale : List (List ℚ)
deriving DecidableEq

/-- Transcription of `InverseGamma._get_scipy_param` from
`skpro/distributions/inversegamma.py`. -/
def InverseGamma.getScipyParam (g : DistributionGrid) : ScipyParams :=
  { a := g.alphaT, scale := g.betaT }

/-- Modelled from the spec: the exact path of the StatisticsEngine —
for every cell, bind the per-cell scalar scipy parameters to the
backend and invoke its closed-form evaluator for the requested
statistic, elementwise over the grid. -/
def evalExact (backend : String → ℚ → ℚ → ℚ) (stat : String)
    (g : DistributionGrid) : List (List ℚ) :=
  (InverseGamma.getScipyParam g).a.zipWith
    (fun arow srow => arow.zipWith (fun av sv => backend stat av sv) srow)
    (InverseGamma.getScipyParam g).scale

/-- A numpy array: an object identity together with its numeric
contents.  `np.copy` produces a new object identity holding the same
contents. -/
structure NpArr where
  id : Nat
  data : List ℚ
deriving DecidableEq

/-- A Python number as far as `DataManager` inspects it:
`isinstance(split, float)` distinguishes floats from ints. -/
inductive PyNum where
  | float (q : ℚ)
  | int (z : Int)
deriving DecidableEq

/-- The quadruple returned by the external
`sklearn.model_selection.train_test_split` routine. -/
structure SplitResult where
  xTrain : NpArr
  xTest : NpArr
  yTrain : NpArr
  yTest : NpArr
deriving DecidableEq

/-- The external collaborators of `DataManager`, consumed only through
their interfaces: `train_test_split(X, y, test_size, random_state)`
and the two sklearn dataset loaders. -/
structure Ext where
  splitFn : NpArr → NpArr → ℚ → Option Int → SplitResult
  boston : NpArr × NpArr
  diabetes : NpArr × NpArr

/-- The `X` constructor argument of `DataManager`: `None`, a numpy
array, or a dataset-name string. -/
inductive XInput where
  | noneV
  | arr (a : NpArr)
  | str (s : String)

/-- The state of a `DataManager`: the private `_X`/`_y` fields behind
the `X`/`y` properties, the four train/test attributes, and the
configuration fields, from `skpro/workflow/manager/data.py`. -/
structure DataManager where
  random_state : Option Int
  split : PyNum
  _X : Option NpArr
  _y : Option NpArr
  X_train : Option NpArr
  X_test : Option NpArr
  y_train : Option NpArr
  y_test : Option NpArr
  name : String
deriving DecidableEq

/-- Embeds `DataManager._split`: recompute the four train/test attributes via
the external split routine, unless `split` is not a float, or `_X` or
`_y` is `None`, or their lengths differ — in those cases return
without changing anything. -/
def DataManager.recompute (ext : Ext) (dm : DataManager) : DataManager :=
  match dm.split with
  | PyNum.float f =>
    match dm._X, dm._y with
    | some X, some y =>
      if X.data.length = y.data.length then
        let r := ext.splitFn X y f dm.random_state
        { dm with X_train := some r.xTrain, X_test := some r.xTest,
                  y_train := some r.yTrain, y_test := some r.yTest }
      else dm
    | _, _ => dm
  | _ => dm

/-- The setter of the `X` property: store the value in `_X`, then call
`_split`. -/
def DataManager.setX (ext : Ext) (dm : DataManager) (value : Option NpArr) :
    DataManager :=
  DataManager.recompute ext { dm with _X := value }

/-- The setter of the `y` property: store the value in `_y`, then call
`_split`. -/
def DataManager.setY (ext : Ext) (dm : DataManager) (value : Option NpArr) :
    DataManager :=
  DataManager.recompute ext { dm with _y := value }

/-- Python's `str.lower` for the ASCII dataset names compared by the
constructor. -/
def pyLower (s : String) : String :=
  String.mk (s.data.map Char.toLower)

/-- The body of `DataManager.__init__` after the dataset branch:
initialize the fields, then run the `X` and `y` property assignments
(each triggering `_split`), then set `name`, which falls back to
`"Unnamed"` when no string name is available. -/
def DataManager.fresh (ext : Ext) (rX ry : Option NpArr) (split : PyNum)
    (random_state : Option Int) (rname : Option String) : DataManager :=
  let dm0 : DataManager :=
    { random_state := random_state, split := split,
      _X := none, _y := none,
      X_train := none, X_test := none, y_train := none, y_test := none,
      name := "" }
  let dm1 := (dm0.setX ext rX).setY ext ry
  { dm1 with name := match rname with | some s => s | none => "Unnamed" }

/-- Embeds `DataManager.__init__`: a string `X` autoloads a sklearn dataset
(case-insensitively `boston` or `diabetes`, any other string raises
`ValueError` before any attribute is set) and becomes the name; then
the fields are initialized and the `X` and `y` property assignments
run, each triggering `_split`. -/
def DataManager.mkNew (ext : Ext) (X : XInput) (y : Option NpArr)
    (split : PyNum) (name : Option String) (random_state : Option Int) :
    Except Err DataManager :=
  let resolved : Except Err (Option NpArr × Option NpArr × Option String) :=
    match X with
    | XInput.str s =>
      if pyLower s = "boston" then
        Except.ok (some ext.boston.1, some ext.boston.2, some s)
      else if pyLower s = "diabetes" then
        Except.ok (some ext.diabetes.1, some ext.diabetes.2, some s)
      else
        Except.error (Err.valueError ("'" ++ s ++ "' is not a valid dataset"))
    | XInput.arr a => Except.ok (some a, y, name)
    | XInput.noneV => Except.ok (none, y, name)
  match resolved with
  | Except.error e => Except.error e
  | Except.ok (rX, ry, rname) =>
    Except.ok (DataManager.fresh ext rX ry split random_state rname)

/-- Embeds `np.copy`: a fresh array object with the same contents. -/
def npCopy (fid : Nat) (a : NpArr) : NpArr :=
  { id := fid, data := a.data }

/-- Embeds `DataManager.data()` with `copy=True`: `np.copy` of the private
`_X` and `_y` fields (the two fresh object identities are the
allocator's business and appear here as arguments). -/
def DataManager.dataCopy (fid1 fid2 : Nat) (dm : DataManager) :
    Option NpArr × Option NpArr :=
  (dm._X.map (npCopy fid1), dm._y.map (npCopy fid2))

/-- Embeds `DataManager.clone`: construct a new manager from copied data,
passing `split` positionally and `name` by keyword — and passing no
`random_state`, which therefore defaults to `None`. -/
def DataManager.clone (ext : Ext) (fid1 fid2 : Nat) (dm : DataManager) :
    Except Err DataManager :=
  let d := dm.dataCopy fid1 fid2
  DataManager.mkNew ext
    (match d.1 with | some a => XInput.arr a | none => XInput.noneV)
    d.2 dm.split (some dm.name) none

end Skpro

namespace Skpro

/-- C1: the `InverseGamma` exact-capability list is exactly
["mean", "var", "pdf", "log_pdf", "cdf", "ppf"], the approximate list is
exactly ["energy", "pdfnorm"], the two lists are disjoint, and every
registered statistic occurs exactly once across the two lists. -/
theorem inversegamma_capability_tags :
    InverseGamma.capabilitiesExact
      = ["mean", "var", "pdf", "log_pdf", "cdf", "ppf"] ∧
    InverseGamma.capabilitiesApprox = ["energy", "pdfnorm"] ∧
    (∀ s, s ∈ InverseGamma.capabilitiesExact →
      s ∉ InverseGamma.capabilitiesApprox) ∧
    (InverseGamma.capabilitiesExact ++ InverseGamma.capabilitiesApprox).Nodup :=
  by refine ⟨rfl, rfl, ?_, ?_⟩ <;> decide

/-- C2, counterexample: constructing with alpha=[6, 2.5] and
beta=[[1,1],[2,3],[4,5]] does NOT give alpha=6 in both columns of
row 0 — the 1-D alpha is broadcast as a row, so cell (0, 1) holds
alpha = 2.5, not 6. -/
theorem inversegamma_broadcast_row0_not_all_six :
    gridAlphaAt
      (InverseGamma.construct (Param.vec [6, 5/2])
        (Param.mat [[1, 1], [2, 3], [4, 5]]) none none) 0 1 = some (5/2) ∧
    (5 / 2 : ℚ) ≠ 6 := by
  constructor
  · simp [InverseGamma.construct, Param.domainOk, Param.values, Param.shape,
      bcDim, resolveIndex, bcTensor, Param.bcGet, gridAlphaAt,
      DistributionGrid.alphaAt, List.range_succ, Bind.bind, Except.bind,
      defaultIndex]
  · norm_num

/-- C2, amended: scalar alpha=2, beta=3 with no explicit indices yields
a 1×1 grid; alpha=[6, 2.5] with beta=[[1,1],[2,3],[4,5]] yields a 3×2
grid whose alpha tensor replicates the row [6, 2.5] — so row 0 column 0
uses alpha=6, row 0 column 1 uses alpha=2.5 — and row 1 column 1 uses
alpha=2.5 with beta=3. -/
theorem inversegamma_broadcast_examples :
    gridShape (InverseGamma.construct (Param.scalar 2) (Param.scalar 3)
      none none) = some (1, 1) ∧
    gridShape (InverseGamma.construct (Param.vec [6, 5/2])
      (Param.mat [[1, 1], [2, 3], [4, 5]]) none none) = some (3, 2) ∧
    gridAlpha (InverseGamma.construct (Param.vec [6, 5/2])
      (Param.mat [[1, 1], [2, 3], [4, 5]]) none none)
      = some [[6, 5/2], [6, 5/2], [6, 5/2]] ∧
    gridAlphaAt (InverseGamma.construct (Param.vec [6, 5/2])
      (Param.mat [[1, 1], [2, 3], [4, 5]]) none none) 1 1 = some (5/2) ∧
    gridBetaAt (InverseGamma.construct (Param.vec [6, 5/2])
      (Param.mat [[1, 1], [2, 3], [4, 5]]) none none) 1 1 = some 3 := by
  refine ⟨?_, ?_, ?_, ?_, ?_⟩ <;>
    simp [InverseGamma.construct, Param.domainOk, Param.values, Param.shape,
      bcDim, resolveIndex, bcTensor, Param.bcGet, gridShape, gridAlpha,
      gridAlphaAt, gridBetaAt, DistributionGrid.alphaAt,
      DistributionGrid.betaAt, List.range_succ, Bind.bind, Except.bind,
      defaultIndex]

/-- A parameter with a non-positive value fails domain validation. -/
theorem domainOk_false {p : Param} (h : ∃ x ∈ p.values, x ≤ 0) :
    p.domainOk = false := by
  rcases h with ⟨x, hx, hx0⟩
  unfold Param.domainOk
  refine List.all_eq_false.mpr ⟨x, hx, ?_⟩
  simp only [decide_eq_true_eq]
  exact not_lt.mpr hx0

/-- C3: constructing an `InverseGamma` whose alpha or beta holds a
value that is not strictly positive fails with a DomainError at
construction time — no grid is produced. -/
theorem inversegamma_domain_error (alpha beta : Param)
    (index columns : Option (List Label))
    (h : (∃ x ∈ alpha.values, x ≤ 0) ∨ (∃ x ∈ beta.values, x ≤ 0)) :
    InverseGamma.construct alpha beta index columns
      = Except.error (Err.domainError "alpha") ∨
    InverseGamma.construct alpha beta index columns
      = Except.error (Err.domainError "beta") := by
  rcases h with hα | hβ
  · left
    simp [InverseGamma.construct, domainOk_false hα]
  · cases haok : alpha.domainOk
    · left
      simp [InverseGamma.construct, haok]
    · right
      simp [InverseGamma.construct, haok, domainOk_false hβ]

/-- C3 witness: alpha = -1 is rejected at construction time. -/
theorem inversegamma_domain_error_witness :
    ((∃ x ∈ (Param.scalar (-1)).values, x ≤ 0) ∨
      (∃ x ∈ (Param.scalar 3).values, x ≤ 0)) ∧
    (InverseGamma.construct (Param.scalar (-1)) (Param.scalar 3) none none
        = Except.error (Err.domainError "alpha") ∨
     InverseGamma.construct (Param.scalar (-1)) (Param.scalar 3) none none
        = Except.error (Err.domainError "beta")) := by
  have hyp : (∃ x ∈ (Param.scalar (-1)).values, x ≤ 0) ∨
      (∃ x ∈ (Param.scalar 3).values, x ≤ 0) := by
    left
    exact ⟨-1, by simp [Param.values], by norm_num⟩
  exact ⟨hyp, inversegamma_domain_error _ _ none none hyp⟩

/-- C4: explicit indices of lengths 3 and 2 with scalar parameters
(broadcast shape 1×1) expand the grid to 3×2; an explicit index whose
length neither matches the broadcast dimension nor meets the
dimension-1 expansion rule fails with a ShapeError naming the
conflicting dimension and values, both at the index-resolution step
and for the whole construction. -/
theorem inversegamma_explicit_index :
    gridShape (InverseGamma.construct (Param.scalar 2) (Param.scalar 3)
      (some [Label.nat 1, Label.nat 2, Label.nat 5])
      (some [Label.str "a", Label.str "b"])) = some (3, 2) ∧
    (∀ (dim : String) (labels : List Label) (bdim : Nat),
      labels.length ≠ bdim → bdim ≠ 1 →
      resolveIndex dim (some labels) bdim
        = Except.error (Err.shapeError dim labels.length bdim)) ∧
    (∀ (alpha beta : Param) (labels : List Label)
      (cols : Option (List Label)) (sa sb : Nat × Nat) (r c : Nat),
      alpha.domainOk = true → beta.domainOk = true →
      alpha.shape = some sa → beta.shape = some sb →
      bcDim sa.1 sb.1 = some r → bcDim sa.2 sb.2 = some c →
      labels.length ≠ r → r ≠ 1 →
      InverseGamma.construct alpha beta (some labels) cols
        = Except.error (Err.shapeError "rows" labels.length r)) := by
  refine ⟨?_, ?_, ?_⟩
  · simp [InverseGamma.construct, Param.domainOk, Param.values, Param.shape,
      bcDim, resolveIndex, bcTensor, Param.bcGet, gridShape,
      List.range_succ, Bind.bind, Except.bind, defaultIndex]
  · intro dim labels bdim hlen h1
    simp [resolveIndex, hlen, h1]
  · intro alpha beta labels cols sa sb r c hda hdb hsa hsb hr hc hlen hr1
    simp [InverseGamma.construct, hda, hdb, hsa, hsb, hr, hc, resolveIndex,
      hlen, hr1, Bind.bind, Except.bind]

/-- C4 witness: index of length 2 against broadcast row dimension 3
(with no dimension-1 expansion possible) is a ShapeError for the whole
construction, and a concrete index-resolution mismatch errors too. -/
theorem inversegamma_explicit_index_witness :
    resolveIndex "rows" (some [Label.nat 0]) 3
      = Except.error (Err.shapeError "rows" 1 3) ∧
    InverseGamma.construct (Param.scalar 2)
      (Param.mat [[1, 1], [2, 3], [4, 5]])
      (some [Label.nat 0, Label.nat 1]) none
      = Except.error (Err.shapeError "rows" 2 3) := by
  have h := inversegamma_explicit_index
  constructor
  · exact h.2.1 "rows" [Label.nat 0] 3 (by norm_num) (by norm_num)
  · exact h.2.2 (Param.scalar 2) (Param.mat [[1, 1], [2, 3], [4, 5]])
      [Label.nat 0, Label.nat 1] none (1, 1) (3, 2) 3 2
      (by simp [Param.domainOk, Param.values])
      (by simp [Param.domainOk, Param.values])
      (by simp [Param.shape]) (by simp [Param.shape])
      (by simp [bcDim]) (by simp [bcDim]) (by norm_num) (by norm_num)

/-- C5: `get_test_params` returns a fixed, deterministic list of
example configurations — the same list for every `parameter_set` — and
the list covers the array-broadcast case (a non-scalar parameter), the
scalar case with explicit index and columns, and the pure-scalar case
with no indices. -/
theorem inversegamma_get_test_params (parameterSet : String) :
    InverseGamma.getTestParams parameterSet
      = InverseGamma.getTestParams "default" ∧
    (∃ p ∈ InverseGamma.getTestParams parameterSet,
      p.alpha.isScalar = false ∧ p.beta.isScalar = false) ∧
    (∃ p ∈ InverseGamma.getTestParams parameterSet,
      p.alpha.isScalar = true ∧ p.beta.isScalar = true ∧
      p.index ≠ none ∧ p.columns ≠ none) ∧
    (∃ p ∈ InverseGamma.getTestParams parameterSet,
      p.alpha.isScalar = true ∧ p.beta.isScalar = true ∧
      p.index = none ∧ p.columns = none) := by
  refine ⟨rfl, ?_, ?_, ?_⟩
  · exact ⟨(InverseGamma.getTestParams parameterSet).getD 0
      { alpha := Param.scalar 0, beta := Param.scalar 0,
        index := none, columns := none },
      by simp [InverseGamma.getTestParams], by
        simp [InverseGamma.getTestParams, Param.isScalar]⟩
  · exact ⟨(InverseGamma.getTestParams parameterSet).getD 1
      { alpha := Param.scalar 0, beta := Param.scalar 0,
        index := none, columns := none },
      by simp [InverseGamma.getTestParams], by
        simp [InverseGamma.getTestParams, Param.isScalar]⟩
  · exact ⟨(InverseGamma.getTestParams parameterSet).getD 2
      { alpha := Param.scalar 0, beta := Param.scalar 0,
        index := none, columns := none },
      by simp [InverseGamma.getTestParams], by
        simp [InverseGamma.getTestParams, Param.isScalar]⟩

/-- C5 witness: the coverage facts at the concrete argument
"default". -/
theorem inversegamma_get_test_params_witness :
    InverseGamma.getTestParams "default"
      = InverseGamma.getTestParams "default" ∧
    (∃ p ∈ InverseGamma.getTestParams "default",
      p.alpha.isScalar = false ∧ p.beta.isScalar = false) ∧
    (∃ p ∈ InverseGamma.getTestParams "default",
      p.alpha.isScalar = true ∧ p.beta.isScalar = true ∧
      p.index ≠ none ∧ p.columns ≠ none) ∧
    (∃ p ∈ InverseGamma.getTestParams "default",
      p.alpha.isScalar = true ∧ p.beta.isScalar = true ∧
      p.index = none ∧ p.columns = none) :=
  inversegamma_get_test_params "default"

/-- C7: construction and exact evaluation are deterministic — two
grids constructed from identical raw parameters and indices are equal
as values, their broadcast parameter tensors and scipy parameters are
identical, and every exact-capability statistic evaluates identically
on them for any backend. -/
theorem inversegamma_deterministic (a1 a2 b1 b2 : Param)
    (i1 i2 c1 c2 : Option (List Label))
    (ha : a1 = a2) (hb : b1 = b2) (hi : i1 = i2) (hc : c1 = c2) :
    InverseGamma.construct a1 b1 i1 c1 = InverseGamma.construct a2 b2 i2 c2 ∧
    ∀ g1 g2, InverseGamma.construct a1 b1 i1 c1 = Except.ok g1 →
      InverseGamma.construct a2 b2 i2 c2 = Except.ok g2 →
      g1.alphaT = g2.alphaT ∧ g1.betaT = g2.betaT ∧
      InverseGamma.getScipyParam g1 = InverseGamma.getScipyParam g2 ∧
      ∀ (stat : String) (backend : String → ℚ → ℚ → ℚ),
        stat ∈ InverseGamma.capabilitiesExact →
        evalExact backend stat g1 = evalExact backend stat g2 := by
  subst ha hb hi hc
  refine ⟨rfl, ?_⟩
  intro g1 g2 h1 h2
  rw [h1] at h2
  injection h2 with h
  subst h
  exact ⟨rfl, rfl, rfl, fun _ _ _ => rfl⟩

/-- C7 witness: the two construction results agree at the concrete
scalar input alpha=2, beta=3. -/
theorem inversegamma_deterministic_witness :
    InverseGamma.construct (Param.scalar 2) (Param.scalar 3) none none
      = InverseGamma.construct (Param.scalar 2) (Param.scalar 3) none none :=
  (inversegamma_deterministic (Param.scalar 2) (Param.scalar 2)
    (Param.scalar 3) (Param.scalar 3) none none none none
    rfl rfl rfl rfl).1

/-- The `_split` recomputation never touches the private `_X` field. -/
theorem recompute_X (ext : Ext) (dm : DataManager) :
    (DataManager.recompute ext dm)._X = dm._X := by
  unfold DataManager.recompute
  repeat' split
  all_goals rfl

/-- The `_split` recomputation never touches the private `_y` field. -/
theorem recompute_y (ext : Ext) (dm : DataManager) :
    (DataManager.recompute ext dm)._y = dm._y := by
  unfold DataManager.recompute
  repeat' split
  all_goals rfl

/-- The `_split` recomputation never touches the `split` field. -/
theorem recompute_split (ext : Ext) (dm : DataManager) :
    (DataManager.recompute ext dm).split = dm.split := by
  unfold DataManager.recompute
  repeat' split
  all_goals rfl

/-- The `_split` recomputation never touches `random_state`. -/
theorem recompute_rs (ext : Ext) (dm : DataManager) :
    (DataManager.recompute ext dm).random_state = dm.random_state := by
  unfold DataManager.recompute
  repeat' split
  all_goals rfl

/-- The `_split` recomputation never touches the `name` field. -/
theorem recompute_name (ext : Ext) (dm : DataManager) :
    (DataManager.recompute ext dm).name = dm.name := by
  unfold DataManager.recompute
  repeat' split
  all_goals rfl

/-- A freshly constructed manager stores the resolved `X` in `_X`. -/
theorem fresh_X (ext : Ext) (rX ry : Option NpArr) (split : PyNum)
    (rs : Option Int) (rname : Option String) :
    (DataManager.fresh ext rX ry split rs rname)._X = rX := by
  simp [DataManager.fresh, DataManager.setX, DataManager.setY,
    recompute_X, recompute_y]

/-- A freshly constructed manager stores the resolved `y` in `_y`. -/
theorem fresh_y (ext : Ext) (rX ry : Option NpArr) (split : PyNum)
    (rs : Option Int) (rname : Option String) :
    (DataManager.fresh ext rX ry split rs rname)._y = ry := by
  simp [DataManager.fresh, DataManager.setX, DataManager.setY,
    recompute_X, recompute_y]

/-- A freshly constructed manager keeps the given `split`. -/
theorem fresh_split (ext : Ext) (rX ry : Option NpArr) (split : PyNum)
    (rs : Option Int) (rname : Option String) :
    (DataManager.fresh ext rX ry split rs rname).split = split := by
  simp [DataManager.fresh, DataManager.setX, DataManager.setY,
    recompute_split]

/-- A freshly constructed manager keeps the given `random_state`. -/
theorem fresh_rs (ext : Ext) (rX ry : Option NpArr) (split : PyNum)
    (rs : Option Int) (rname : Option String) :
    (DataManager.fresh ext rX ry split rs rname).random_state = rs := by
  simp [DataManager.fresh, DataManager.setX, DataManager.setY,
    recompute_rs]

/-- A freshly constructed manager's name is the given name, or
`"Unnamed"` when none was available. -/
theorem fresh_name (ext : Ext) (rX ry : Option NpArr) (split : PyNum)
    (rs : Option Int) (rname : Option String) :
    (DataManager.fresh ext rX ry split rs rname).name
      = (match rname with | some s => s | none => "Unnamed") := by
  simp [DataManager.fresh]

/-- C6: when the stored `split` is a float and, after the assignment,
both `_X` and `_y` hold arrays of equal length, assigning to the `X`
or `y` property stores the value and, as a side effect, sets the four
train/test attributes to the result of the external split routine
called with test fraction `split` and the stored random seed.  The
constructor performs exactly these property assignments. -/
theorem datamanager_assign_triggers_split (ext : Ext) (dm : DataManager)
    (f : ℚ) (hs : dm.split = PyNum.float f) :
    (∀ (v y : NpArr), dm._y = some y → v.data.length = y.data.length →
      dm.setX ext (some v) =
        { dm with
          _X := some v,
          X_train := some (ext.splitFn v y f dm.random_state).xTrain,
          X_test := some (ext.splitFn v y f dm.random_state).xTest,
          y_train := some (ext.splitFn v y f dm.random_state).yTrain,
          y_test := some (ext.splitFn v y f dm.random_state).yTest }) ∧
    (∀ (x w : NpArr), dm._X = some x → x.data.length = w.data.length →
      dm.setY ext (some w) =
        { dm with
          _y := some w,
          X_train := some (ext.splitFn x w f dm.random_state).xTrain,
          X_test := some (ext.splitFn x w f dm.random_state).xTest,
          y_train := some (ext.splitFn x w f dm.random_state).yTrain,
          y_test := some (ext.splitFn x w f dm.random_state).yTest }) := by
  constructor
  · intro v y hy hlen
    simp [DataManager.setX, DataManager.recompute, hs, hy, hlen]
  · intro x w hx hlen
    simp [DataManager.setY, DataManager.recompute, hs, hx, hlen]

/-- Concrete array with identity 0 used in witnesses. -/
def demoArr1 : NpArr :=
  { id := 0, data := [1, 2, 3, 4] }

/-- Concrete array with identity 1 used in witnesses. -/
def demoArr2 : NpArr :=
  { id := 1, data := [5, 6, 7, 8] }

/-- Concrete external collaborators used in witnesses. -/
def demoExt : Ext :=
  { splitFn := fun X y _ _ =>
      { xTrain := X, xTest := X, yTrain := y, yTest := y },
    boston := ({ id := 2, data := [1] }, { id := 3, data := [2] }),
    diabetes := ({ id := 4, data := [3] }, { id := 5, data := [4] }) }

/-- Concrete manager with a float split used in witnesses. -/
def demoDM : DataManager :=
  { random_state := none, split := PyNum.float (1/5), _X := some demoArr1,
    _y := some demoArr2, X_train := none, X_test := none, y_train := none,
    y_test := none, name := "demo" }

/-- C6 witness: assigning `X` on a concrete manager with float split
0.2 recomputes the four train/test attributes via the split routine. -/
theorem datamanager_assign_triggers_split_witness :
    demoDM.split = PyNum.float (1/5) ∧
    demoDM.setX demoExt (some demoArr1) =
      { demoDM with
        _X := some demoArr1,
        X_train := some (demoExt.splitFn demoArr1 demoArr2 (1/5)
          demoDM.random_state).xTrain,
        X_test := some (demoExt.splitFn demoArr1 demoArr2 (1/5)
          demoDM.random_state).xTest,
        y_train := some (demoExt.splitFn demoArr1 demoArr2 (1/5)
          demoDM.random_state).yTrain,
        y_test := some (demoExt.splitFn demoArr1 demoArr2 (1/5)
          demoDM.random_state).yTest } :=
  ⟨rfl, (datamanager_assign_triggers_split demoExt demoDM (1/5) rfl).1
    demoArr1 demoArr2 rfl rfl⟩

/-- C8: when the split-guard fails — `split` is not a float, or the
(post-assignment) `_X` or `_y` is `None`, or their lengths differ —
assigning to `X` or `y` stores the value in the private field, leaves
the four train/test attributes (and every other field) unchanged, and
raises no error. -/
theorem datamanager_split_guard_frame (ext : Ext) (dm : DataManager) :
    (∀ (v : Option NpArr),
      ((∀ f, dm.split ≠ PyNum.float f) ∨ v = none ∨ dm._y = none ∨
        (∀ a b, v = some a → dm._y = some b →
          a.data.length ≠ b.data.length)) →
      dm.setX ext v = { dm with _X := v }) ∧
    (∀ (w : Option NpArr),
      ((∀ f, dm.split ≠ PyNum.float f) ∨ dm._X = none ∨ w = none ∨
        (∀ a b, dm._X = some a → w = some b →
          a.data.length ≠ b.data.length)) →
      dm.setY ext w = { dm with _y := w }) := by
  constructor
  · intro v h
    rcases hsp : dm.split with q | z
    · rcases h with hnf | hv | hy | hlen
      · exact absurd hsp (hnf q)
      · subst hv
        simp [DataManager.setX, DataManager.recompute, hsp]
      · simp [DataManager.setX, DataManager.recompute, hsp, hy]
      · rcases hv : v with _ | a
        · simp [DataManager.setX, DataManager.recompute, hsp]
        · rcases hy : dm._y with _ | b
          · simp [DataManager.setX, DataManager.recompute, hsp, hy]
          · simp [DataManager.setX, DataManager.recompute, hsp, hy,
              hlen a b hv hy]
    · simp [DataManager.setX, DataManager.recompute, hsp]
  · intro w h
    rcases hsp : dm.split with q | z
    · rcases h with hnf | hx | hw | hlen
      · exact absurd hsp (hnf q)
      · simp [DataManager.setY, DataManager.recompute, hsp, hx]
      · subst hw
        simp [DataManager.setY, DataManager.recompute, hsp]
      · rcases hw : w with _ | b
        · simp [DataManager.setY, DataManager.recompute, hsp]
        · rcases hx : dm._X with _ | a
          · simp [DataManager.setY, DataManager.recompute, hsp, hx]
          · simp [DataManager.setY, DataManager.recompute, hsp, hx,
              hlen a b hx hw]
    · simp [DataManager.setY, DataManager.recompute, hsp]

/-- Concrete manager whose split is the int 1 (not a float). -/
def demoDMint : DataManager :=
  { demoDM with split := PyNum.int 1 }

/-- C8 witness: with split = int 1, assigning `X` stores the value and
changes nothing else. -/
theorem datamanager_split_guard_frame_witness :
    (∀ f, demoDMint.split ≠ PyNum.float f) ∧
    demoDMint.setX demoExt (some demoArr1)
      = { demoDMint with _X := some demoArr1 } := by
  have hg : ∀ f, demoDMint.split ≠ PyNum.float f := by
    intro f h
    simp [demoDMint, demoDM] at h
  exact ⟨hg, (datamanager_split_guard_frame demoExt demoDMint).1
    (some demoArr1) (Or.inl hg)⟩

/-- C9: `clone` returns a new manager whose `X`, `y`, `split` and
`name` equal the original's as values, whose `random_state` is `None`
regardless of the original's, and whose arrays are copies — equal
contents under fresh object identities. -/
theorem datamanager_clone (ext : Ext) (dm : DataManager) (a b : NpArr)
    (fid1 fid2 : Nat) (hx : dm._X = some a) (hy : dm._y = some b)
    (hf1 : fid1 ≠ a.id) (hf2 : fid2 ≠ b.id) :
    ∃ dm2, dm.clone ext fid1 fid2 = Except.ok dm2 ∧
      dm2._X = some (npCopy fid1 a) ∧ dm2._y = some (npCopy fid2 b) ∧
      (npCopy fid1 a).data = a.data ∧ (npCopy fid2 b).data = b.data ∧
      (npCopy fid1 a).id ≠ a.id ∧ (npCopy fid2 b).id ≠ b.id ∧
      dm2.split = dm.split ∧ dm2.name = dm.name ∧
      dm2.random_state = none := by
  unfold DataManager.clone DataManager.dataCopy
  rw [hx, hy]
  simp only [Option.map_some']
  refine ⟨_, rfl, ?_, ?_, rfl, rfl, hf1, hf2, ?_, ?_, ?_⟩
  · exact fresh_X ..
  · exact fresh_y ..
  · exact fresh_split ..
  · exact fresh_name ..
  · exact fresh_rs ..

/-- C9 witness: cloning a concrete manager with fresh identities 10
and 11 copies the data, keeps split and name, and drops the random
state. -/
theorem datamanager_clone_witness :
    demoDM._X = some demoArr1 ∧ demoDM._y = some demoArr2 ∧
    (10 : Nat) ≠ demoArr1.id ∧ (11 : Nat) ≠ demoArr2.id ∧
    ∃ dm2, demoDM.clone demoExt 10 11 = Except.ok dm2 ∧
      dm2._X = some (npCopy 10 demoArr1) ∧
      dm2._y = some (npCopy 11 demoArr2) ∧
      (npCopy 10 demoArr1).data = demoArr1.data ∧
      (npCopy 11 demoArr2).data = demoArr2.data ∧
      (npCopy 10 demoArr1).id ≠ demoArr1.id ∧
      (npCopy 11 demoArr2).id ≠ demoArr2.id ∧
      dm2.split = demoDM.split ∧ dm2.name = demoDM.name ∧
      dm2.random_state = none :=
  ⟨rfl, rfl, by decide, by decide,
    datamanager_clone demoExt demoDM demoArr1 demoArr2 10 11 rfl rfl
      (by decide) (by decide)⟩

/-- C10: a string `X` recognized case-insensitively as `boston` or
`diabetes` loads that dataset into `X`/`y` and makes the given string
the manager's name; any other string fails with a `ValueError` and no
manager is produced. -/
theorem datamanager_dataset_autoload (ext : Ext) (y : Option NpArr)
    (split : PyNum) (nm : Option String) (rs : Option Int) (s : String) :
    (pyLower s = "boston" →
      ∃ dm, DataManager.mkNew ext (XInput.str s) y split nm rs
          = Except.ok dm ∧
        dm.name = s ∧ dm._X = some ext.boston.1 ∧
        dm._y = some ext.boston.2) ∧
    (pyLower s = "diabetes" →
      ∃ dm, DataManager.mkNew ext (XInput.str s) y split nm rs
          = Except.ok dm ∧
        dm.name = s ∧ dm._X = some ext.diabetes.1 ∧
        dm._y = some ext.diabetes.2) ∧
    (pyLower s ≠ "boston" → pyLower s ≠ "diabetes" →
      DataManager.mkNew ext (XInput.str s) y split nm rs
        = Except.error
            (Err.valueError ("'" ++ s ++ "' is not a valid dataset"))) := by
  refine ⟨?_, ?_, ?_⟩
  · intro h
    have hmk : DataManager.mkNew ext (XInput.str s) y split nm rs
        = Except.ok (DataManager.fresh ext (some ext.boston.1)
            (some ext.boston.2) split rs (some s)) := by
      simp [DataManager.mkNew, h]
    exact ⟨_, hmk, fresh_name .., fresh_X .., fresh_y ..⟩
  · intro h
    have hb : pyLower s ≠ "boston" := by
      rw [h]
      decide
    have hmk : DataManager.mkNew ext (XInput.str s) y split nm rs
        = Except.ok (DataManager.fresh ext (some ext.diabetes.1)
            (some ext.diabetes.2) split rs (some s)) := by
      simp [DataManager.mkNew, h, hb]
    exact ⟨_, hmk, fresh_name .., fresh_X .., fresh_y ..⟩
  · intro h1 h2
    simp [DataManager.mkNew, h1, h2]

/-- C10 witness: "BOSTON" autoloads the boston dataset and names the
manager "BOSTON"; the string "foo" raises a ValueError. -/
theorem datamanager_dataset_autoload_witness :
    pyLower "BOSTON" = "boston" ∧
    (∃ dm, DataManager.mkNew demoExt (XInput.str "BOSTON") none
        (PyNum.float (1/5)) none none = Except.ok dm ∧
      dm.name = "BOSTON" ∧ dm._X = some demoExt.boston.1 ∧
      dm._y = some demoExt.boston.2) ∧
    DataManager.mkNew demoExt (XInput.str "foo") none (PyNum.float (1/5))
        none none
      = Except.error
          (Err.valueError ("'" ++ "foo" ++ "' is not a valid dataset")) := by
  refine ⟨by decide, ?_, ?_⟩
  · exact (datamanager_dataset_autoload demoExt none (PyNum.float (1/5))
      none none "BOSTON").1 (by decide)
  · exact (datamanager_dataset_autoload demoExt none (PyNum.float (1/5))
      none none "foo").2.2 (by decide) (by decide)

end Skpro
